import Mathlib

/-!
Shallow embedding of `priv/python/chatterbex_bridge.py` (holsee/chatterbex).

The script is a line-delimited JSON request/response loop driving an external
TTS library.  External collaborators (torch device probes, the chatterbox
model loaders, `model.generate`, `torchaudio.save`, base64) are modelled as
fields of an `Env` record; the repository's own logic (device fallback,
session state, kwargs filtering, dispatch, shape normalization) is translated
function by function.  JSON scalar values are modelled by `JVal` (the claims
only touch scalar-valued fields); Python `None` is identified with JSON null,
as `json.loads` produces.  Tensors are modelled by their shape, which is the
only tensor attribute the repository's own code inspects.
-/

/-- A JSON scalar value (also standing for the Python values the bridge
manipulates: `json.loads` maps null to `None`). -/
inductive JVal where
  | null
  | bool (b : Bool)
  | num (q : Rat)
  | str (s : String)
deriving Repr, DecidableEq

/-- Python truthiness of a decoded JSON scalar, as used by
`if kwargs["audio_prompt"]:`. -/
def JVal.truthy : JVal → Bool
  | .null => false
  | .bool b => b
  | .num q => q != 0
  | .str s => s != ""

/-- Python `str()` of a decoded JSON scalar, as interpolated by f-strings.
For non-integral numbers Python renders a decimal literal; the rational's
rendering stands in for it (no claim depends on that case). -/
def JVal.pyStr : JVal → String
  | .null => "None"
  | .bool true => "True"
  | .bool false => "False"
  | .num q => if q.den = 1 then toString q.num else toString q
  | .str s => s

/-- A decoded JSON object: association list of fields, keys unique, in
insertion order (Python dicts preserve insertion order). -/
abbrev Request : Type := List (String × JVal)

/-- A response dict, in the field order the Python dict literals use
(`json.dumps` preserves it). -/
abbrev Response : Type := List (String × JVal)

/-- The error-response shape used throughout the script:
`{"status": "error", "error": msg}`. -/
def errorResp (msg : String) : Response :=
  [("status", JVal.str "error"), ("error", JVal.str msg)]

/-- A torch tensor, modelled by its shape — the only tensor attribute the
bridge's own code inspects (`dim`, `unsqueeze`). -/
structure Tensor where
  shape : List Nat
deriving Repr, DecidableEq

/-- The `tensor.dim()` call. -/
def Tensor.dim (t : Tensor) : Nat := t.shape.length

/-- The `tensor.unsqueeze(0)` call: prepend a size-1 dimension. -/
def Tensor.unsqueeze0 (t : Tensor) : Tensor := ⟨1 :: t.shape⟩

/-- The `tensor.cpu()` call: device placement is not part of the shape model. -/
def Tensor.cpu (t : Tensor) : Tensor := t

/-- An external chatterbox model object: the named sub-components the bridge
relocates (`comps` lists the names for which `hasattr` holds, the component
is not `None` and has a `.to` method, paired with the component's current
device), the optional `device` attribute, and the `sr` attribute. -/
structure ModelHandle where
  comps : List (String × String)
  hasDeviceAttr : Bool
  deviceAttr : String
  sr : Nat
deriving Repr, DecidableEq

/-- The `hasattr(model, n)` test for a movable sub-component. -/
def ModelHandle.hasComp (m : ModelHandle) (n : String) : Bool :=
  (m.comps.lookup n).isSome

/-- The `setattr(model, n, component.to(d))` step: record the component's new device. -/
def ModelHandle.setComp (m : ModelHandle) (n : String) (d : String) : ModelHandle :=
  { m with comps := m.comps.map (fun p => if p.1 = n then (n, d) else p) }

/-- The guarded attribute update `if hasattr(model, "device"): model.device = d`. -/
def ModelHandle.setDeviceAttr (m : ModelHandle) (d : String) : ModelHandle :=
  if m.hasDeviceAttr then { m with deviceAttr := d } else m

/-- The external world: torch availability probes, the chatterbox loaders
(`from_pretrained`, keyed by the model-type value, raising = `.error`),
whether relocating a given sub-component to MPS raises, the model's
`generate` call, `torchaudio.save` (bytes as `List Nat`), and base64. -/
structure Env where
  cuda_is_available : Bool
  mps_is_available : Bool
  from_pretrained : JVal → String → Except String ModelHandle
  moveRaises : String → Bool
  model_generate : ModelHandle → JVal → Request → Except String Tensor
  ta_save : Tensor → Nat → List Nat
  b64encode : List Nat → String

/-- Translation of `_detect_device(requested_device)`: CUDA/MPS with availability fallback,
CPU otherwise.  (The Python parameter is annotated `str`; it is dynamically
typed, so the embedding accepts any decoded value.) -/
def detect_device (env : Env) (requested_device : JVal) : String :=
  if requested_device = JVal.str "cuda" then
    if env.cuda_is_available then "cuda" else "cpu"
  else if requested_device = JVal.str "mps" then
    if env.mps_is_available then "mps" else "cpu"
  else
    "cpu"

/-- The `ChatterboxBridge` object's mutable state, as set up by `__init__`:
`self.model`, `self.model_type`, `self.device`, all initially `None`. -/
structure ChatterboxBridge where
  model : Option ModelHandle
  model_type : Option JVal
  device : Option String
deriving Repr, DecidableEq

/-- A fresh `ChatterboxBridge()`. -/
def ChatterboxBridge.new : ChatterboxBridge := ⟨none, none, none⟩

/-- The relocation loop of `_move_to_mps`: for each name in order, if the
model has that movable component, `component.to("mps")` — which may raise
(second result `true`), stopping the loop with the components moved so far. -/
def moveComponents (env : Env) : ModelHandle → List String → ModelHandle × Bool
  | m, [] => (m, false)
  | m, n :: rest =>
    if m.hasComp n then
      if env.moveRaises n then (m, true)
      else moveComponents env (m.setComp n "mps") rest
    else moveComponents env m rest

/-- Translation of `ChatterboxBridge._move_to_mps`: move the named sub-components to MPS,
then set the model's `device` attribute; on any exception fall back, setting
`self.device = "cpu"` and the model's `device` attribute to `"cpu"`.
(`hasattr(None, _)` is false, so with no model loaded the body is a no-op.) -/
def ChatterboxBridge.move_to_mps (env : Env) (self : ChatterboxBridge) : ChatterboxBridge :=
  match self.model with
  | none => self
  | some m =>
    let r := moveComponents env m ["t3", "s3gen", "ve", "model"]
    if r.2 then
      { self with device := some "cpu", model := some (r.1.setDeviceAttr "cpu") }
    else
      { self with model := some (r.1.setDeviceAttr "mps") }

/-- Translation of `ChatterboxBridge.init_model(model_type, device)`.  Resolves the device,
eagerly records `self.device` and `self.model_type`, loads the model for a
known model type (to CPU first when the resolved device is MPS), relocates to
MPS when needed, and returns `{"status":"ok","device":actual_device}`.  An
unknown model type returns the error response; a loader exception is caught
and returned as an error response (state mutations already made persist). -/
def ChatterboxBridge.init_model (env : Env) (self : ChatterboxBridge)
    (model_type : JVal) (device : JVal) : ChatterboxBridge × Response :=
  let actual_device := detect_device env device
  let s1 : ChatterboxBridge :=
    { self with device := some actual_device, model_type := some model_type }
  let load_device := if actual_device = "mps" then "cpu" else actual_device
  if model_type = JVal.str "turbo" ∨ model_type = JVal.str "english" ∨
      model_type = JVal.str "multilingual" then
    match env.from_pretrained model_type load_device with
    | .error e => (s1, errorResp e)
    | .ok m =>
      let s2 : ChatterboxBridge := { s1 with model := some m }
      let s3 := if actual_device = "mps" ∧ load_device = "cpu" then
          ChatterboxBridge.move_to_mps env s2 else s2
      (s3, [("status", JVal.str "ok"), ("device", JVal.str actual_device)])
  else
    (s1, errorResp ("Unknown model type: " ++ model_type.pyStr))

/-- The `audio_prompt` clause of the `gen_kwargs` assembly in
`ChatterboxBridge.generate`: `if "audio_prompt" in kwargs and
kwargs["audio_prompt"]: gen_kwargs["audio_prompt_path"] = ...`. -/
def apClause (kwargs : Request) : Request :=
  match kwargs.lookup "audio_prompt" with
  | some v => if v.truthy then [("audio_prompt_path", v)] else []
  | none => []

/-- The `language` clause: `if self.model_type == "multilingual" and
"language" in kwargs: gen_kwargs["language_id"] = ...`. -/
def langClause (self : ChatterboxBridge) (kwargs : Request) : Request :=
  if self.model_type = some (JVal.str "multilingual") then
    match kwargs.lookup "language" with
    | some v => [("language_id", v)]
    | none => []
  else []

/-- The `exaggeration` clause of the english-only block: `if "exaggeration"
in kwargs and kwargs["exaggeration"] is not None: ...`. -/
def exagClause (self : ChatterboxBridge) (kwargs : Request) : Request :=
  if self.model_type = some (JVal.str "english") then
    match kwargs.lookup "exaggeration" with
    | some v => if v ≠ JVal.null then [("exaggeration", v)] else []
    | none => []
  else []

/-- The `cfg_weight` clause of the english-only block (the Python code
checks `self.model_type == "english"` once around both scalar clauses;
repeating the identical test here is equivalent). -/
def cfgClause (self : ChatterboxBridge) (kwargs : Request) : Request :=
  if self.model_type = some (JVal.str "english") then
    match kwargs.lookup "cfg_weight" with
    | some v => if v ≠ JVal.null then [("cfg_weight", v)] else []
    | none => []
  else []

/-- The complete `gen_kwargs` assembly, in the code's key-insertion order:
a truthy `audio_prompt` becomes `audio_prompt_path` for any kind; `language`
becomes `language_id` only for the multilingual kind; non-null
`exaggeration` and `cfg_weight` pass through only for the english kind;
every other supplied key is dropped. -/
def buildGenKwargs (self : ChatterboxBridge) (kwargs : Request) : Request :=
  apClause kwargs ++
    (langClause self kwargs ++ (exagClause self kwargs ++ cfgClause self kwargs))

/-- Translation of `ChatterboxBridge._wav_to_bytes(wav, sample_rate)`: normalize a 1-D
buffer to `(channels, samples)` by `unsqueeze(0)`, then
`ta.save(buffer, wav.cpu(), sample_rate, format="wav")`. -/
def ChatterboxBridge.wav_to_bytes (env : Env) (wav : Tensor) (sample_rate : Nat) : List Nat :=
  let wav2 := if wav.dim = 1 then wav.unsqueeze0 else wav
  env.ta_save wav2.cpu sample_rate

/-- The shape-normalization step of `_wav_to_bytes` on its own (the tensor
actually handed to `ta.save`). -/
def normalizeWav (wav : Tensor) : Tensor :=
  if wav.dim = 1 then wav.unsqueeze0 else wav

/-- Translation of `ChatterboxBridge.generate(text, **kwargs)`.  The second component of the
result instruments whether the external model's `generate` was invoked
(`false` on the not-initialized early return).  Exceptions from the model
call are caught and become error responses. -/
def ChatterboxBridge.generate (env : Env) (self : ChatterboxBridge)
    (text : JVal) (kwargs : Request) : Response × Bool :=
  match self.model with
  | none => (errorResp "Model not initialized", false)
  | some m =>
    let gen_kwargs := buildGenKwargs self kwargs
    match env.model_generate m text gen_kwargs with
    | .error e => (errorResp e, true)
    | .ok wav =>
      let audio_bytes := ChatterboxBridge.wav_to_bytes env wav m.sr
      let audio_base64 := env.b64encode audio_bytes
      ([("status", JVal.str "ok"), ("audio", JVal.str audio_base64)], true)

/-- The dispatch body of `main` for one decoded request: `request.get("type")`
(absent fields read as `None`), the `init`/`generate`/`ping` arms with their
defaults, and the unknown-type error. -/
def handleRequest (env : Env) (bridge : ChatterboxBridge) (request : Request) :
    ChatterboxBridge × Response :=
  let request_type := (request.lookup "type").getD JVal.null
  if request_type = JVal.str "init" then
    let model_type := (request.lookup "model").getD (JVal.str "turbo")
    let device := (request.lookup "device").getD (JVal.str "cuda")
    ChatterboxBridge.init_model env bridge model_type device
  else if request_type = JVal.str "generate" then
    let text := (request.lookup "text").getD (JVal.str "")
    let kwargs : Request :=
      request.filter (fun p => p.1 != "type" && p.1 != "text")
    (bridge, (ChatterboxBridge.generate env bridge text kwargs).1)
  else if request_type = JVal.str "ping" then
    (bridge, [("status", JVal.str "ok"), ("message", JVal.str "pong")])
  else
    (bridge, errorResp ("Unknown request type: " ++ request_type.pyStr))

/-- One line of standard input, after `line.strip()`: blank (skipped), not
valid JSON (`json.loads` raises `JSONDecodeError` rendered as the carried
string), or a decoded JSON object.  (A line of valid non-object JSON is
outside this model; no spec claim touches it.) -/
inductive Line where
  | blank
  | bad (e : String)
  | good (r : Request)

/-- One iteration of the `main` loop: skip blanks, answer a parse failure
with the `Invalid JSON` error and continue, otherwise dispatch. -/
def processLine (env : Env) (bridge : ChatterboxBridge) (line : Line) :
    ChatterboxBridge × List Response :=
  match line with
  | .blank => (bridge, [])
  | .bad e => (bridge, [errorResp ("Invalid JSON: " ++ e)])
  | .good request =>
    let p := handleRequest env bridge request
    (p.1, [p.2])

/-- The `main` loop over the whole input stream: one response line per
non-blank input line, state threaded through. -/
def mainLoop (env : Env) (bridge : ChatterboxBridge) : List Line → List Response
  | [] => []
  | l :: rest =>
    let p := processLine env bridge l
    p.2 ++ mainLoop env p.1 rest

/-! Concrete instances used by the witness theorems. -/

/-- A concrete model handle: one movable component `t3`, a `device`
attribute, sample rate 24000. -/
def mh0 : ModelHandle :=
  { comps := [("t3", "cpu")], hasDeviceAttr := true, deviceAttr := "cpu", sr := 24000 }

/-- A concrete environment: both accelerators available, loading always
succeeds with `mh0`, every MPS relocation raises, generation succeeds with a
1-D eight-sample buffer. -/
def env0 : Env :=
  { cuda_is_available := true
    mps_is_available := true
    from_pretrained := fun _ _ => Except.ok mh0
    moveRaises := fun _ => true
    model_generate := fun _ _ _ => Except.ok ⟨[8]⟩
    ta_save := fun _ _ => [82, 73]
    b64encode := fun _ => "Ukk=" }

/-! Claims. -/

/-- C3: Device resolution returns "cuda" exactly for request "cuda" with
CUDA available, "mps" exactly for request "mps" with MPS available, and
"cpu" in every other case (any other or unspecified value); it is a total
function (never raises) whose result is always one of the three
identifiers. -/
theorem detect_device_resolution (env : Env) (rd : JVal) :
    (rd = JVal.str "cuda" →
      detect_device env rd = if env.cuda_is_available then "cuda" else "cpu")
    ∧ (rd = JVal.str "mps" →
      detect_device env rd = if env.mps_is_available then "mps" else "cpu")
    ∧ (rd ≠ JVal.str "cuda" → rd ≠ JVal.str "mps" → detect_device env rd = "cpu")
    ∧ (detect_device env rd = "cuda" ∨ detect_device env rd = "mps" ∨
        detect_device env rd = "cpu") := by
  unfold detect_device
  split_ifs <;> simp_all

/-- Witness for C3 at concrete inputs. -/
theorem detect_device_resolution_witness :
    detect_device env0 (JVal.str "cuda") = "cuda"
    ∧ detect_device env0 (JVal.str "something-else") = "cpu" :=
  ⟨(detect_device_resolution env0 (JVal.str "cuda")).1 rfl,
   (detect_device_resolution env0 (JVal.str "something-else")).2.2.1
     (by decide) (by decide)⟩

/-- C4: A `generate` request while no model is loaded answers
`{"status":"error","error":"Model not initialized"}` and does not invoke the
external model library (the instrumentation bit is `false`). -/
theorem generate_before_init (env : Env) (self : ChatterboxBridge) (text : JVal)
    (kwargs : Request) (h : self.model = none) :
    ChatterboxBridge.generate env self text kwargs =
      (errorResp "Model not initialized", false) := by
  simp [ChatterboxBridge.generate, h]

/-- Witness for C4 on a fresh bridge. -/
theorem generate_before_init_witness :
    ChatterboxBridge.new.model = none
    ∧ ChatterboxBridge.generate env0 ChatterboxBridge.new (JVal.str "hello") [] =
        (errorResp "Model not initialized", false) :=
  ⟨rfl, generate_before_init env0 ChatterboxBridge.new (JVal.str "hello") [] rfl⟩

/-- C5: A line that is not valid JSON produces exactly one error
response naming the parse failure, and the loop goes on to serve the
remaining lines from the same state. -/
theorem malformed_json_continues (env : Env) (bridge : ChatterboxBridge)
    (e : String) (rest : List Line) :
    mainLoop env bridge (Line.bad e :: rest) =
      errorResp ("Invalid JSON: " ++ e) :: mainLoop env bridge rest := by
  simp [mainLoop, processLine]

/-- C9: `_wav_to_bytes` hands `ta.save` the normalized tensor: a 1-D
buffer of `n` samples becomes shape `(1, n)` (exactly one channel), while a
2-D buffer keeps its shape. -/
theorem wav_shape_normalized (env : Env) (wav : Tensor) (sample_rate : Nat) :
    ChatterboxBridge.wav_to_bytes env wav sample_rate =
      env.ta_save (normalizeWav wav) sample_rate
    ∧ (∀ n, wav.shape = [n] → (normalizeWav wav).shape = [1, n])
    ∧ (wav.dim = 2 → normalizeWav wav = wav) := by
  refine ⟨rfl, ?_, ?_⟩
  · intro n h
    simp [normalizeWav, Tensor.dim, Tensor.unsqueeze0, h]
  · intro h
    simp [normalizeWav, h]

/-- Witness for C9 at concrete shapes. -/
theorem wav_shape_normalized_witness :
    (normalizeWav ⟨[5]⟩).shape = [1, 5] ∧ normalizeWav ⟨[2, 5]⟩ = ⟨[2, 5]⟩ :=
  ⟨(wav_shape_normalized env0 ⟨[5]⟩ 24000).2.1 5 rfl,
   (wav_shape_normalized env0 ⟨[2, 5]⟩ 24000).2.2 rfl⟩

/-- C10: A decoded JSON object with no `type` field does not crash the
loop: `request.get("type")` reads `None`, the response is
`{"status":"error","error":"Unknown request type: None"}`, and the loop
serves the remaining lines from the same state. -/
theorem missing_type_handled (env : Env) (bridge : ChatterboxBridge) (r : Request)
    (rest : List Line) (h : r.lookup "type" = none) :
    mainLoop env bridge (Line.good r :: rest) =
      errorResp "Unknown request type: None" :: mainLoop env bridge rest := by
  simp [mainLoop, processLine, handleRequest, h, JVal.pyStr]

/-- Witness for C10 on a one-field object without `type`. -/
theorem missing_type_handled_witness :
    mainLoop env0 ChatterboxBridge.new [Line.good [("foo", JVal.num 1)]] =
      [errorResp "Unknown request type: None"] :=
  missing_type_handled env0 ChatterboxBridge.new [("foo", JVal.num 1)] [] rfl

/-- C6: A well-formed request whose `type` is none of `init`, `generate`,
`ping` is answered with an error identifying the unknown type, the session
untouched; in particular `{"type":"unknown"}` yields exactly
`{"status":"error","error":"Unknown request type: unknown"}`. -/
theorem unknown_type_error (env : Env) (bridge : ChatterboxBridge) (r : Request)
    (h1 : (r.lookup "type").getD JVal.null ≠ JVal.str "init")
    (h2 : (r.lookup "type").getD JVal.null ≠ JVal.str "generate")
    (h3 : (r.lookup "type").getD JVal.null ≠ JVal.str "ping") :
    handleRequest env bridge r =
      (bridge,
       errorResp ("Unknown request type: " ++ ((r.lookup "type").getD JVal.null).pyStr))
    ∧ mainLoop env bridge [Line.good [("type", JVal.str "unknown")]] =
      [errorResp "Unknown request type: unknown"] := by
  constructor
  · simp [handleRequest, h1, h2, h3]
  · rfl

/-- Witness for C6 at a concrete unknown type. -/
theorem unknown_type_error_witness :
    handleRequest env0 ChatterboxBridge.new [("type", JVal.str "bogus")] =
      (ChatterboxBridge.new, errorResp "Unknown request type: bogus") :=
  (unknown_type_error env0 ChatterboxBridge.new [("type", JVal.str "bogus")]
    (by decide) (by decide) (by decide)).1

/-- C8: In every `init` request the two defaults apply independently: a
missing `model` field defaults to `"turbo"` (whatever `device` holds), and a
missing `device` field defaults to `"cuda"` (whatever `model` holds), before
initialization proceeds. -/
theorem init_defaults (env : Env) (bridge : ChatterboxBridge) (r : Request)
    (ht : (r.lookup "type").getD JVal.null = JVal.str "init") :
    (r.lookup "model" = none →
      handleRequest env bridge r =
        ChatterboxBridge.init_model env bridge (JVal.str "turbo")
          ((r.lookup "device").getD (JVal.str "cuda")))
    ∧ (r.lookup "device" = none →
      handleRequest env bridge r =
        ChatterboxBridge.init_model env bridge
          ((r.lookup "model").getD (JVal.str "turbo")) (JVal.str "cuda")) := by
  constructor
  · intro hm
    simp [handleRequest, ht, hm]
  · intro hd
    simp [handleRequest, ht, hd]

/-- Witness for C8: one request missing only `device`, one missing only
`model`. -/
theorem init_defaults_witness :
    handleRequest env0 ChatterboxBridge.new
        [("type", JVal.str "init"), ("model", JVal.str "english")] =
      ChatterboxBridge.init_model env0 ChatterboxBridge.new
        (JVal.str "english") (JVal.str "cuda")
    ∧ handleRequest env0 ChatterboxBridge.new
        [("type", JVal.str "init"), ("device", JVal.str "cpu")] =
      ChatterboxBridge.init_model env0 ChatterboxBridge.new
        (JVal.str "turbo") (JVal.str "cpu") :=
  ⟨(init_defaults env0 ChatterboxBridge.new
      [("type", JVal.str "init"), ("model", JVal.str "english")] rfl).2 rfl,
   (init_defaults env0 ChatterboxBridge.new
      [("type", JVal.str "init"), ("device", JVal.str "cpu")] rfl).1 rfl⟩

/-- C1, counterexample: On a fresh session,
`{"type":"init","model":"bogus","device":"cpu"}` does return the
unknown-model error, but the session is NOT left exactly as before: the
`device` field (and likewise `model_type`) has been overwritten before the
validation, so the claim's "all three session fields are unchanged" is
false. -/
theorem init_unknown_model_counterexample :
    (handleRequest env0 ChatterboxBridge.new
        [("type", JVal.str "init"), ("model", JVal.str "bogus"),
         ("device", JVal.str "cpu")]).2 = errorResp "Unknown model type: bogus"
    ∧ (handleRequest env0 ChatterboxBridge.new
        [("type", JVal.str "init"), ("model", JVal.str "bogus"),
         ("device", JVal.str "cpu")]).1.device ≠ ChatterboxBridge.new.device := by
  decide

/-- C1, amended: An `init` with an unknown model value returns the error
response identifying it, the model handle is unchanged (so a subsequent
`generate` on a previously uninitialized session still reports "Model not
initialized" without invoking the library), but the session's `model_type`
and `device` fields are overwritten with the request's model value and the
resolved device. -/
theorem init_unknown_model_amended (env : Env) (self : ChatterboxBridge)
    (model_type device : JVal)
    (h1 : model_type ≠ JVal.str "turbo") (h2 : model_type ≠ JVal.str "english")
    (h3 : model_type ≠ JVal.str "multilingual") :
    (ChatterboxBridge.init_model env self model_type device).2 =
      errorResp ("Unknown model type: " ++ model_type.pyStr)
    ∧ (ChatterboxBridge.init_model env self model_type device).1 =
      { self with model_type := some model_type,
                  device := some (detect_device env device) }
    ∧ (ChatterboxBridge.init_model env self model_type device).1.model = self.model
    ∧ (self.model = none → ∀ text kwargs,
        ChatterboxBridge.generate env
          (ChatterboxBridge.init_model env self model_type device).1 text kwargs =
          (errorResp "Model not initialized", false)) := by
  have hguard : ¬ (model_type = JVal.str "turbo" ∨ model_type = JVal.str "english" ∨
      model_type = JVal.str "multilingual") := by
    rintro (h | h | h)
    · exact h1 h
    · exact h2 h
    · exact h3 h
  refine ⟨?_, ?_, ?_, ?_⟩
  · simp [ChatterboxBridge.init_model, hguard]
  · simp [ChatterboxBridge.init_model, hguard]
  · simp [ChatterboxBridge.init_model, hguard]
  · intro hm text kwargs
    simp [ChatterboxBridge.init_model, hguard, ChatterboxBridge.generate, hm]

/-- Witness for the amended C1 at a concrete unknown model. -/
theorem init_unknown_model_amended_witness :
    (ChatterboxBridge.init_model env0 ChatterboxBridge.new
        (JVal.str "bogus") (JVal.str "cpu")).2 = errorResp "Unknown model type: bogus"
    ∧ (ChatterboxBridge.init_model env0 ChatterboxBridge.new
        (JVal.str "bogus") (JVal.str "cpu")).1 =
      { ChatterboxBridge.new with model_type := some (JVal.str "bogus"),
                                  device := some "cpu" }
    ∧ (ChatterboxBridge.init_model env0 ChatterboxBridge.new
        (JVal.str "bogus") (JVal.str "cpu")).1.model = ChatterboxBridge.new.model
    ∧ (ChatterboxBridge.new.model = none → ∀ text kwargs,
        ChatterboxBridge.generate env0
          (ChatterboxBridge.init_model env0 ChatterboxBridge.new
            (JVal.str "bogus") (JVal.str "cpu")).1 text kwargs =
          (errorResp "Model not initialized", false)) :=
  init_unknown_model_amended env0 ChatterboxBridge.new (JVal.str "bogus")
    (JVal.str "cpu") (by decide) (by decide) (by decide)

/-- C2: Initialization that resolved to MPS, loaded the model (to CPU
first), and then hit a raising relocation step records the session device as
"cpu" yet still returns a success response (best-effort downgrade, not
fatal). -/
theorem mps_relocation_failure_downgrade (env : Env) (self : ChatterboxBridge)
    (model_type device : JVal) (m : ModelHandle)
    (hknown : model_type = JVal.str "turbo" ∨ model_type = JVal.str "english" ∨
      model_type = JVal.str "multilingual")
    (hdet : detect_device env device = "mps")
    (hload : env.from_pretrained model_type "cpu" = Except.ok m)
    (hraise : (moveComponents env m ["t3", "s3gen", "ve", "model"]).2 = true) :
    (ChatterboxBridge.init_model env self model_type device).1.device = some "cpu"
    ∧ (ChatterboxBridge.init_model env self model_type device).2 =
        [("status", JVal.str "ok"), ("device", JVal.str "mps")] := by
  rcases hknown with h | h | h <;> subst h <;>
    simp [ChatterboxBridge.init_model, ChatterboxBridge.move_to_mps,
      hdet, hload, hraise]

/-- Witness for C2: MPS available, load succeeds, relocating `t3` raises. -/
theorem mps_relocation_failure_downgrade_witness :
    (ChatterboxBridge.init_model env0 ChatterboxBridge.new
        (JVal.str "turbo") (JVal.str "mps")).1.device = some "cpu"
    ∧ (ChatterboxBridge.init_model env0 ChatterboxBridge.new
        (JVal.str "turbo") (JVal.str "mps")).2 =
        [("status", JVal.str "ok"), ("device", JVal.str "mps")] :=
  mps_relocation_failure_downgrade env0 ChatterboxBridge.new
    (JVal.str "turbo") (JVal.str "mps") mh0 (Or.inl rfl) rfl rfl rfl

/-- Looking a key up in an appended list scans the left list first. -/
theorem lookup_append (l1 l2 : List (String × JVal)) (k : String) :
    (l1 ++ l2).lookup k = ((l1.lookup k).orElse fun _ => l2.lookup k) := by
  induction l1 with
  | nil => simp [List.lookup, Option.orElse]
  | cons p rest ih =>
    rcases p with ⟨a, b⟩
    cases h : k == a <;> simp [List.lookup, h, ih, Option.orElse]


/-- Computing `isSome` of the left-biased choice of two options. -/
theorem isSome_orElse (a b : Option JVal) :
    (a.orElse fun _ => b).isSome = (a.isSome || b.isSome) := by
  cases a <;> simp [Option.orElse]

/-- A list whose keys all equal `k0` has no binding for any other key. -/
theorem lookup_eq_none_of_keys (l : List (String × JVal)) (k0 k : String)
    (hk : ∀ p ∈ l, p.1 = k0) (hne : (k == k0) = false) : l.lookup k = none := by
  induction l with
  | nil => rfl
  | cons p rest ih =>
    rcases p with ⟨a, b⟩
    have ha : a = k0 := hk (a, b) (List.mem_cons_self _ _)
    subst ha
    simp only [List.lookup, hne]
    exact ih fun q hq => hk q (List.mem_cons_of_mem _ hq)

/-- Every binding produced by the `audio_prompt` clause has key
`audio_prompt_path`. -/
theorem apClause_keys (kwargs : Request) :
    ∀ p ∈ apClause kwargs, p.1 = "audio_prompt_path" := by
  intro p hp
  unfold apClause at hp
  rcases h : kwargs.lookup "audio_prompt" with _ | v <;> simp [h] at hp
  rcases hp with ⟨ht, hp⟩
  simp [hp]

/-- Every binding produced by the `language` clause has key `language_id`. -/
theorem langClause_keys (self : ChatterboxBridge) (kwargs : Request) :
    ∀ p ∈ langClause self kwargs, p.1 = "language_id" := by
  intro p hp
  unfold langClause at hp
  by_cases hml : self.model_type = some (JVal.str "multilingual") <;>
    simp [hml] at hp
  rcases h : kwargs.lookup "language" with _ | v <;> simp [h] at hp
  simp [hp]

/-- Every binding produced by the `exaggeration` clause has key
`exaggeration`. -/
theorem exagClause_keys (self : ChatterboxBridge) (kwargs : Request) :
    ∀ p ∈ exagClause self kwargs, p.1 = "exaggeration" := by
  intro p hp
  unfold exagClause at hp
  by_cases hen : self.model_type = some (JVal.str "english") <;>
    simp [hen] at hp
  rcases h : kwargs.lookup "exaggeration" with _ | v <;> simp [h] at hp
  rcases hp with ⟨hv, hp⟩
  simp [hp]

/-- Every binding produced by the `cfg_weight` clause has key `cfg_weight`. -/
theorem cfgClause_keys (self : ChatterboxBridge) (kwargs : Request) :
    ∀ p ∈ cfgClause self kwargs, p.1 = "cfg_weight" := by
  intro p hp
  unfold cfgClause at hp
  by_cases hen : self.model_type = some (JVal.str "english") <;>
    simp [hen] at hp
  rcases h : kwargs.lookup "cfg_weight" with _ | v <;> simp [h] at hp
  rcases hp with ⟨hv, hp⟩
  simp [hp]

/-- The `audio_prompt` clause binds its key exactly when a truthy
`audio_prompt` was supplied. -/
theorem apClause_lookup (kwargs : Request) :
    ((apClause kwargs).lookup "audio_prompt_path").isSome = true ↔
      ∃ v, kwargs.lookup "audio_prompt" = some v ∧ v.truthy = true := by
  unfold apClause
  rcases h : kwargs.lookup "audio_prompt" with _ | v
  · simp [List.lookup]
  · by_cases ht : v.truthy = true <;> simp [ht, List.lookup]

/-- The `language` clause binds its key exactly for the multilingual kind
with `language` supplied. -/
theorem langClause_lookup (self : ChatterboxBridge) (kwargs : Request) :
    ((langClause self kwargs).lookup "language_id").isSome = true ↔
      self.model_type = some (JVal.str "multilingual") ∧
        (kwargs.lookup "language").isSome = true := by
  unfold langClause
  by_cases hml : self.model_type = some (JVal.str "multilingual")
  · rcases h : kwargs.lookup "language" with _ | v <;> simp [hml, h, List.lookup]
  · simp [hml]

/-- The `exaggeration` clause binds its key exactly for the english kind
with a non-null `exaggeration` supplied. -/
theorem exagClause_lookup (self : ChatterboxBridge) (kwargs : Request) :
    ((exagClause self kwargs).lookup "exaggeration").isSome = true ↔
      self.model_type = some (JVal.str "english") ∧
        ∃ v, kwargs.lookup "exaggeration" = some v ∧ v ≠ JVal.null := by
  unfold exagClause
  by_cases hen : self.model_type = some (JVal.str "english")
  · rcases h : kwargs.lookup "exaggeration" with _ | v
    · simp [hen, h, List.lookup]
    · by_cases hv : v = JVal.null <;> simp [hen, h, hv, List.lookup]
  · simp [hen]

/-- The `cfg_weight` clause binds its key exactly for the english kind with
a non-null `cfg_weight` supplied. -/
theorem cfgClause_lookup (self : ChatterboxBridge) (kwargs : Request) :
    ((cfgClause self kwargs).lookup "cfg_weight").isSome = true ↔
      self.model_type = some (JVal.str "english") ∧
        ∃ v, kwargs.lookup "cfg_weight" = some v ∧ v ≠ JVal.null := by
  unfold cfgClause
  by_cases hen : self.model_type = some (JVal.str "english")
  · rcases h : kwargs.lookup "cfg_weight" with _ | v
    · simp [hen, h, List.lookup]
    · by_cases hv : v = JVal.null <;> simp [hen, h, hv, List.lookup]
  · simp [hen]

/-- C7: `generate` forwards to the model call exactly the parameters
applicable to the loaded model kind: a truthy `audio_prompt` (as
`audio_prompt_path`) for every kind; `language` (as `language_id`) only for
the multilingual kind; non-null `exaggeration` and `cfg_weight` only for the
english kind; no other supplied parameter ever appears in the forwarded
kwargs, and the model call receives exactly `buildGenKwargs`. -/
theorem generate_kwargs_filtering (self : ChatterboxBridge) (kwargs : Request) :
    (((buildGenKwargs self kwargs).lookup "audio_prompt_path").isSome = true ↔
       ∃ v, kwargs.lookup "audio_prompt" = some v ∧ v.truthy = true)
    ∧ (((buildGenKwargs self kwargs).lookup "language_id").isSome = true ↔
       self.model_type = some (JVal.str "multilingual") ∧
         (kwargs.lookup "language").isSome = true)
    ∧ (((buildGenKwargs self kwargs).lookup "exaggeration").isSome = true ↔
       self.model_type = some (JVal.str "english") ∧
         ∃ v, kwargs.lookup "exaggeration" = some v ∧ v ≠ JVal.null)
    ∧ (((buildGenKwargs self kwargs).lookup "cfg_weight").isSome = true ↔
       self.model_type = some (JVal.str "english") ∧
         ∃ v, kwargs.lookup "cfg_weight" = some v ∧ v ≠ JVal.null)
    ∧ (∀ p, p ∈ buildGenKwargs self kwargs →
       p.1 ∈ (["audio_prompt_path", "language_id", "exaggeration",
               "cfg_weight"] : List String))
    ∧ (∀ env m text, self.model = some m →
       ChatterboxBridge.generate env self text kwargs =
         (match env.model_generate m text (buildGenKwargs self kwargs) with
          | .error e => (errorResp e, true)
          | .ok wav =>
            ([("status", JVal.str "ok"),
              ("audio", JVal.str (env.b64encode
                (ChatterboxBridge.wav_to_bytes env wav m.sr)))], true))) := by
  refine ⟨?_, ?_, ?_, ?_, ?_, ?_⟩
  · have hl := lookup_eq_none_of_keys (langClause self kwargs) "language_id"
      "audio_prompt_path" (langClause_keys self kwargs) rfl
    have he := lookup_eq_none_of_keys (exagClause self kwargs) "exaggeration"
      "audio_prompt_path" (exagClause_keys self kwargs) rfl
    have hc := lookup_eq_none_of_keys (cfgClause self kwargs) "cfg_weight"
      "audio_prompt_path" (cfgClause_keys self kwargs) rfl
    simp only [buildGenKwargs, lookup_append, hl, he, hc, isSome_orElse,
      Option.isSome_none, Bool.or_false]
    exact apClause_lookup kwargs
  · have ha := lookup_eq_none_of_keys (apClause kwargs) "audio_prompt_path"
      "language_id" (apClause_keys kwargs) rfl
    have he := lookup_eq_none_of_keys (exagClause self kwargs) "exaggeration"
      "language_id" (exagClause_keys self kwargs) rfl
    have hc := lookup_eq_none_of_keys (cfgClause self kwargs) "cfg_weight"
      "language_id" (cfgClause_keys self kwargs) rfl
    simp only [buildGenKwargs, lookup_append, ha, he, hc, isSome_orElse,
      Option.isSome_none, Bool.or_false, Bool.false_or]
    exact langClause_lookup self kwargs
  · have ha := lookup_eq_none_of_keys (apClause kwargs) "audio_prompt_path"
      "exaggeration" (apClause_keys kwargs) rfl
    have hl := lookup_eq_none_of_keys (langClause self kwargs) "language_id"
      "exaggeration" (langClause_keys self kwargs) rfl
    have hc := lookup_eq_none_of_keys (cfgClause self kwargs) "cfg_weight"
      "exaggeration" (cfgClause_keys self kwargs) rfl
    simp only [buildGenKwargs, lookup_append, ha, hl, hc, isSome_orElse,
      Option.isSome_none, Bool.or_false, Bool.false_or]
    exact exagClause_lookup self kwargs
  · have ha := lookup_eq_none_of_keys (apClause kwargs) "audio_prompt_path"
      "cfg_weight" (apClause_keys kwargs) rfl
    have hl := lookup_eq_none_of_keys (langClause self kwargs) "language_id"
      "cfg_weight" (langClause_keys self kwargs) rfl
    have he := lookup_eq_none_of_keys (exagClause self kwargs) "exaggeration"
      "cfg_weight" (exagClause_keys self kwargs) rfl
    simp only [buildGenKwargs, lookup_append, ha, hl, he, isSome_orElse,
      Option.isSome_none, Bool.or_false, Bool.false_or]
    exact cfgClause_lookup self kwargs
  · intro p hp
    simp only [buildGenKwargs, List.mem_append] at hp
    rcases hp with h | h | h | h
    · simp [apClause_keys kwargs p h]
    · simp [langClause_keys self kwargs p h]
    · simp [exagClause_keys self kwargs p h]
    · simp [cfgClause_keys self kwargs p h]
  · intro env m text hm
    simp [ChatterboxBridge.generate, hm]

/-- Witness for C7: an english-kind session with an irrelevant `language`
and a relevant `exaggeration` supplied; the scalar is forwarded, the
language identifier is not, and the model call sees exactly the assembled
kwargs. -/
theorem generate_kwargs_filtering_witness :
    ((buildGenKwargs ⟨some mh0, some (JVal.str "english"), some "cpu"⟩
        [("audio_prompt", JVal.str "p.wav"), ("language", JVal.str "fr"),
         ("exaggeration", JVal.num 1)]).lookup "exaggeration").isSome = true
    ∧ ChatterboxBridge.generate env0
        ⟨some mh0, some (JVal.str "english"), some "cpu"⟩ (JVal.str "hi")
        [("audio_prompt", JVal.str "p.wav"), ("language", JVal.str "fr"),
         ("exaggeration", JVal.num 1)] =
        ([("status", JVal.str "ok"), ("audio", JVal.str "Ukk=")], true) :=
  ⟨(generate_kwargs_filtering ⟨some mh0, some (JVal.str "english"), some "cpu"⟩
      [("audio_prompt", JVal.str "p.wav"), ("language", JVal.str "fr"),
       ("exaggeration", JVal.num 1)]).2.2.1.mpr
     ⟨rfl, JVal.num 1, rfl, by decide⟩,
   (generate_kwargs_filtering ⟨some mh0, some (JVal.str "english"), some "cpu"⟩
      [("audio_prompt", JVal.str "p.wav"), ("language", JVal.str "fr"),
       ("exaggeration", JVal.num 1)]).2.2.2.2.2 env0 mh0 (JVal.str "hi") rfl⟩
